import Mathlib

/-!
Verification development for the cookie-notice-scanner repository
(`scan.py`, `results.py`).  The Python data model and the algorithms that
the checked properties concern are shallowly embedded below: pure
computations become Lean functions, stateful methods become explicit
state-passing functions on record types, remote-protocol interactions are
abstracted as oracle parameters (a function from a URL to the summary of
the resulting scan, a hit-test function from a point to the topmost
element, the outcome of a remote call as an `Except` value), and Python
floats for geometry are modelled as rationals.
-/

namespace CookieScanner

/-! ## Failure reason constants (scan.py lines 30-32) -/

def FAILED_REASON_TIMEOUT : String := "Page.navigate timeout"

def FAILED_REASON_STATUS_CODE : String := "status code"

def FAILED_REASON_LOADING : String := "loading failed"

/-! ## Webpage (scan.py lines 35-50)

`url` is recomputed from protocol/domain exactly where the Python code
reassigns `self.url`. -/

structure Webpage where
  domain : String
  protocol : String
  url : String
deriving DecidableEq

/-- Models `Webpage.__init__` (the `rank` field is irrelevant to the
checked properties and omitted). -/
def Webpage.make (domain protocol : String) : Webpage :=
  ⟨domain, protocol, protocol ++ "://" ++ domain⟩

def Webpage.set_protocol (w : Webpage) (protocol : String) : Webpage :=
  ⟨w.domain, protocol, protocol ++ "://" ++ w.domain⟩

def Webpage.set_subdomain (w : Webpage) (subdomain : String) : Webpage :=
  ⟨w.domain, w.protocol, w.protocol ++ "://" ++ subdomain ++ "." ++ w.domain⟩

def Webpage.remove_subdomain (w : Webpage) : Webpage :=
  ⟨w.domain, w.protocol, w.protocol ++ "://" ++ w.domain⟩

/-! ## Retry policy of `Browser.scan_page` (scan.py lines 210-243)

One `_scan_page` call is abstracted as an oracle from the navigated URL
to a summary of the per-attempt result (its `failed` flag and
`failed_reason`), which is all `scan_page` inspects to decide on a
retry.  The embedding additionally returns the trace of attempted URLs
in order. -/

structure ResultSummary where
  failed : Bool
  failed_reason : Option String
deriving DecidableEq

/-- The retry condition of `Browser.scan_page`:
`result.failed and (result.failed_reason == FAILED_REASON_LOADING or
result.failed_reason == FAILED_REASON_TIMEOUT)`. -/
def isRetryFailure (r : ResultSummary) : Bool :=
  r.failed && ((r.failed_reason == some FAILED_REASON_LOADING)
    || (r.failed_reason == some FAILED_REASON_TIMEOUT))

/-- One of the three `if result.failed and (...)` blocks of `scan_page`:
mutate the webpage with `transform`, re-scan, extend the attempt trace. -/
def retry_step (oracle : String → ResultSummary) (transform : Webpage → Webpage)
    (st : Webpage × ResultSummary × List String) :
    Webpage × ResultSummary × List String :=
  if isRetryFailure st.2.1 then
    let w := transform st.1
    (w, oracle w.url, st.2.2 ++ [w.url])
  else st

/-- `Browser.scan_page` (scan.py lines 210-243): initial scan, then the
three sequential retry blocks (`set_subdomain('www')`;
`remove_subdomain(); set_protocol('http')`; `set_subdomain('www')`).
Returns the list of attempted URLs and the final result summary. -/
def scan_page (oracle : String → ResultSummary) (webpage : Webpage) :
    List String × ResultSummary :=
  let st0 : Webpage × ResultSummary × List String :=
    (webpage, oracle webpage.url, [webpage.url])
  let st1 := retry_step oracle (fun w => w.set_subdomain "www") st0
  let st2 := retry_step oracle (fun w => (w.remove_subdomain).set_protocol "http") st1
  let st3 := retry_step oracle (fun w => w.set_subdomain "www") st2
  (st3.2.2, st3.2.1)

/-- C1: for every webpage scan starting from the default `https` target,
the retry sequence attempts at most 4 navigations, in the deterministic
order `https://domain`, `https://www.domain`, `http://domain`,
`http://www.domain`; attempt k+1 is performed iff attempt k's result is
failed with reason `loading failed` or `Page.navigate timeout`, so a
success or a status-code failure on any attempt stops the sequence. The
statement characterises the full attempt trace and final result: the
trace is the prefix of the canonical URL list that extends exactly as
long as the retry condition keeps holding (capped at 4), and the final
result is the scan of the last attempted URL. -/
theorem C1_retry_sequence (oracle : String → ResultSummary) (domain : String) :
    scan_page oracle (Webpage.make domain "https") =
      (if isRetryFailure (oracle ("https://" ++ domain)) = false then
        ([("https://" ++ domain)], oracle ("https://" ++ domain))
      else if isRetryFailure (oracle ("https://www." ++ domain)) = false then
        ([("https://" ++ domain), ("https://www." ++ domain)],
          oracle ("https://www." ++ domain))
      else if isRetryFailure (oracle ("http://" ++ domain)) = false then
        ([("https://" ++ domain), ("https://www." ++ domain), ("http://" ++ domain)],
          oracle ("http://" ++ domain))
      else
        ([("https://" ++ domain), ("https://www." ++ domain), ("http://" ++ domain),
          ("http://www." ++ domain)],
          oracle ("http://www." ++ domain))) := by
  cases h1 : isRetryFailure (oracle ("https://" ++ domain)) with
  | false =>
    have h1a : isRetryFailure (oracle (Webpage.make domain "https").url) = false := h1
    simp only [scan_page, retry_step, h1a, Bool.false_eq_true, if_false, h1]
    rfl
  | true =>
    have h1a : isRetryFailure (oracle (Webpage.make domain "https").url) = true := h1
    cases h2 : isRetryFailure (oracle ("https://www." ++ domain)) with
    | false =>
      have h2a : isRetryFailure
          (oracle ((Webpage.make domain "https").set_subdomain "www").url) = false := h2
      simp only [scan_page, retry_step, h1a, h2a, Bool.false_eq_true, if_true, if_false, h1, h2]
      rfl
    | true =>
      have h2a : isRetryFailure
          (oracle ((Webpage.make domain "https").set_subdomain "www").url) = true := h2
      cases h3 : isRetryFailure (oracle ("http://" ++ domain)) with
      | false =>
        have h3a : isRetryFailure (oracle (((((Webpage.make domain
            "https").set_subdomain "www").remove_subdomain).set_protocol "http").url)) = false := h3
        simp only [scan_page, retry_step, h1a, h2a, h3a, Bool.false_eq_true, if_true, if_false,
          h1, h2, h3]
        rfl
      | true =>
        have h3a : isRetryFailure (oracle (((((Webpage.make domain
            "https").set_subdomain "www").remove_subdomain).set_protocol "http").url)) = true := h3
        simp only [scan_page, retry_step, h1a, h2a, h3a, Bool.false_eq_true, if_true, if_false,
          h1, h2, h3]
        rfl

/-! ## WebpageResult (scan.py lines 53-135)

Only the fields touched by the checked properties are carried; the
constructor defaults (lines 61-82) are `initResult`. -/

structure Warning where
  message : String
  exception : String
  tb : List String
  method : String
deriving DecidableEq

structure HeaderEntry where
  name : String
  value : String
deriving DecidableEq

structure ResponseEntry where
  url : String
  status : Nat
  mime_type : String
  headers : List HeaderEntry
deriving DecidableEq

structure ResultState where
  failed : Bool
  failed_reason : Option String
  failed_exception : Option String
  failed_traceback : Option String
  warnings : List Warning
  stopped_waiting : Bool
  stopped_waiting_reason : Option String
  requests : List String
  responses : List ResponseEntry
deriving DecidableEq

def initResult : ResultState :=
  { failed := false, failed_reason := none, failed_exception := none,
    failed_traceback := none, warnings := [], stopped_waiting := false,
    stopped_waiting_reason := none, requests := [], responses := [] }

/-- `WebpageResult.set_failed` (lines 92-96): assigns all four failure
fields unconditionally. -/
def ResultState.set_failed (r : ResultState) (reason : String)
    (exception : Option String) (traceback : Option String) : ResultState :=
  { r with
    failed := true, failed_reason := some reason,
    failed_exception := exception, failed_traceback := traceback }

/-- `WebpageResult.add_warning` (lines 98-99). -/
def ResultState.add_warning (r : ResultState) (w : Warning) : ResultState :=
  { r with warnings := r.warnings ++ [w] }

/-- `WebpageResult.set_stopped_waiting` (lines 101-103). -/
def ResultState.set_stopped_waiting (r : ResultState) (reason : String) : ResultState :=
  { r with stopped_waiting := true, stopped_waiting_reason := some reason }

/-- `WebpageResult.add_request` (lines 105-108). -/
def ResultState.add_request (r : ResultState) (request_url : String) : ResultState :=
  { r with requests := r.requests ++ [request_url] }

/-- `WebpageResult.add_response` (lines 110-116). -/
def ResultState.add_response (r : ResultState) (requested_url : String) (status : Nat)
    (mime_type : String) (headers : List HeaderEntry) : ResultState :=
  { r with
    responses := r.responses ++
      [{ url := requested_url, status := status, mime_type := mime_type, headers := headers }] }

/-! ## Network event handlers (scan.py lines 494-532)

Scanner state after `_setup` (lines 377-394): `requestId = None`,
`frameId = None`.  CDP request ids are strings.  The Python
`kwargs.get('frameId', False)` default is modelled by `Option Nat`
inside the stored value (`none` standing for the `False` default), so
that a stored default still marks `frameId` as assigned. -/

structure ScannerState where
  requestId : Option String
  frameId : Option (Option Nat)
  result : ResultState
deriving DecidableEq

def initScanner : ScannerState :=
  { requestId := none, frameId := none, result := initResult }

/-- Leading decimal digit of `n`, computed with the same digit peeling
`str(n)` performs: for every `n : Nat`, `str(n).startswith('4')` in
Python is `leadDigit n = 4` (and likewise for `'5'`).  Fuel-based so
that it is structural and kernel-reducible; `n` itself bounds the
number of divisions. -/
def leadDigitAux : Nat → Nat → Nat
  | 0, n => n
  | fuel + 1, n => if n < 10 then n else leadDigitAux fuel (n / 10)

def leadDigit (n : Nat) : Nat := leadDigitAux n n

/-- The status test of `_event_response_received` (line 527):
`str(status).startswith('4') or str(status).startswith('5')`. -/
def statusIs4xxOr5xx (status : Nat) : Bool :=
  leadDigit status == 4 || leadDigit status == 5

/-- `WebpageScanner._event_request_will_be_sent` (lines 494-511): log
the request URL; record the request id as primary iff none is recorded
yet; record the frame id iff none is recorded yet. -/
def event_request_will_be_sent (s : ScannerState) (request_url : String)
    (requestId : String) (frameId : Option Nat) : ScannerState :=
  let s1 := { s with result := s.result.add_request request_url }
  let s2 := if s1.requestId = none then { s1 with requestId := some requestId } else s1
  if s2.frameId = none then { s2 with frameId := some frameId } else s2

/-- `WebpageScanner._event_response_received` (lines 513-528): always
record the response; mark the scan failed with reason `status code` iff
this response belongs to the primary request and its status has leading
digit 4 or 5. -/
def event_response_received (s : ScannerState) (url : String) (mime_type : String)
    (status : Nat) (headers : List HeaderEntry) (requestId : String) : ScannerState :=
  let s1 := { s with result := s.result.add_response url status mime_type headers }
  if s1.requestId == some requestId && statusIs4xxOr5xx status then
    { s1 with
      result := s1.result.set_failed FAILED_REASON_STATUS_CODE (some (toString status)) none }
  else s1

/-- `WebpageScanner._event_loading_failed` (lines 530-532): mark the
scan failed with reason `loading failed` iff the failing request is the
primary request; otherwise the event leaves the state untouched. -/
def event_loading_failed (s : ScannerState) (requestId : String)
    (errorText : String) : ScannerState :=
  if s.requestId == some requestId then
    { s with result := s.result.set_failed FAILED_REASON_LOADING (some errorText) none }
  else s

set_option maxRecDepth 10000 in
/-- For three-digit statuses the leading-digit test of
`_event_response_received` recognises exactly the 4xx/5xx range. -/
theorem statusIs4xxOr5xx_range : ∀ s : Nat, s < 1000 → 100 ≤ s →
    (statusIs4xxOr5xx s = true ↔ (400 ≤ s ∧ s ≤ 599)) := by decide

/-- C4: the request id of the first `requestWillBeSent` event after
navigation is recorded as the primary request (a later event never
replaces it); a response event with 4xx/5xx status or a `loadingFailed`
event sets the scan failed only when its request id equals the primary
request id; a response event for any other request id is still recorded
in `responses` but never touches the failure fields, and a
`loadingFailed` event for any other request id leaves the state
entirely unchanged. -/
theorem C4_primary_request (s : ScannerState) (u m rid err : String) (st : Nat)
    (hs : List HeaderEntry) (fid : Option Nat) :
    (s.requestId = none →
      (event_request_will_be_sent s u rid fid).requestId = some rid) ∧
    (∀ r0, s.requestId = some r0 →
      (event_request_will_be_sent s u rid fid).requestId = some r0) ∧
    ((event_response_received s u m st hs rid).result.responses
      = s.result.responses ++ [{ url := u, status := st, mime_type := m, headers := hs }]) ∧
    (s.requestId ≠ some rid →
      (event_response_received s u m st hs rid).result.failed = s.result.failed ∧
      (event_response_received s u m st hs rid).result.failed_reason
        = s.result.failed_reason) ∧
    (s.requestId = some rid → 400 ≤ st → st ≤ 599 →
      (event_response_received s u m st hs rid).result.failed = true ∧
      (event_response_received s u m st hs rid).result.failed_reason
        = some FAILED_REASON_STATUS_CODE) ∧
    (100 ≤ st → st ≤ 999 → ¬(400 ≤ st ∧ st ≤ 599) →
      (event_response_received s u m st hs rid).result.failed = s.result.failed ∧
      (event_response_received s u m st hs rid).result.failed_reason
        = s.result.failed_reason) ∧
    (s.requestId ≠ some rid → event_loading_failed s rid err = s) ∧
    (s.requestId = some rid →
      (event_loading_failed s rid err).result.failed = true ∧
      (event_loading_failed s rid err).result.failed_reason
        = some FAILED_REASON_LOADING) := by
  refine ⟨?_, ?_, ?_, ?_, ?_, ?_, ?_, ?_⟩
  · intro h
    cases hf : s.frameId <;> simp [event_request_will_be_sent, h, hf]
  · intro r0 h
    cases hf : s.frameId <;> simp [event_request_will_be_sent, h, hf]
  · simp only [event_response_received]
    split <;> simp [ResultState.set_failed, ResultState.add_response]
  · intro h
    have hbeq : (s.requestId == some rid) = false := by
      simpa using h
    simp [event_response_received, hbeq, ResultState.add_response]
  · intro h h4 h5
    have hst : statusIs4xxOr5xx st = true :=
      (statusIs4xxOr5xx_range st (by omega) (by omega)).mpr ⟨h4, h5⟩
    have hbeq : (s.requestId == some rid) = true := by
      simpa using h
    simp [event_response_received, hbeq, hst, ResultState.set_failed]
  · intro h100 h999 hout
    have hst : statusIs4xxOr5xx st = false := by
      have := statusIs4xxOr5xx_range st (by omega) (by omega)
      rcases hb : statusIs4xxOr5xx st with _ | _
      · rfl
      · exact absurd (this.mp hb) hout
    simp [event_response_received, hst, ResultState.add_response]
  · intro h
    have hbeq : (s.requestId == some rid) = false := by
      simpa using h
    simp [event_loading_failed, hbeq]
  · intro h
    have hbeq : (s.requestId == some rid) = true := by
      simpa using h
    simp [event_loading_failed, hbeq, ResultState.set_failed]

/-- Witness for C4 at concrete inputs: a fresh scanner records the first
request id `R1`; a scanner whose primary request is `R0` keeps it on a
later event, fails on a 404 for `R0`, ignores the failure aspect of a
404 for `R9` and of a 200 for `R0`, and ignores a `loadingFailed` for
`R9` while failing on one for `R0`. -/
theorem C4_primary_request_witness :
    (event_request_will_be_sent initScanner "https://example.org/" "R1" none).requestId
      = some "R1" ∧
    (event_request_will_be_sent { initScanner with requestId := some "R0" }
      "https://example.org/x.js" "R1" none).requestId = some "R0" ∧
    (event_response_received { initScanner with requestId := some "R0" }
      "https://example.org/" "text/html" 404 [] "R0").result.failed = true ∧
    (event_response_received { initScanner with requestId := some "R0" }
      "https://example.org/x.js" "text/html" 404 [] "R9").result.failed = false ∧
    (event_response_received { initScanner with requestId := some "R0" }
      "https://example.org/" "text/html" 200 [] "R0").result.failed = false ∧
    (event_loading_failed { initScanner with requestId := some "R0" } "R9"
      "net::ERR_FAILED") = { initScanner with requestId := some "R0" } ∧
    (event_loading_failed { initScanner with requestId := some "R0" } "R0"
      "net::ERR_FAILED").result.failed = true := by
  refine ⟨?_, ?_, ?_, ?_, ?_, ?_, ?_⟩
  · exact (C4_primary_request initScanner "https://example.org/" "m" "R1" "e" 0 [] none).1 rfl
  · exact (C4_primary_request { initScanner with requestId := some "R0" }
      "https://example.org/x.js" "m" "R1" "e" 0 [] none).2.1 "R0" rfl
  · exact ((C4_primary_request { initScanner with requestId := some "R0" }
      "https://example.org/" "text/html" "R0" "e" 404 [] none).2.2.2.2.1 rfl
      (by decide) (by decide)).1
  · exact ((C4_primary_request { initScanner with requestId := some "R0" }
      "https://example.org/x.js" "text/html" "R9" "e" 404 [] none).2.2.2.1
      (by decide)).1
  · exact ((C4_primary_request { initScanner with requestId := some "R0" }
      "https://example.org/" "text/html" "R0" "e" 200 [] none).2.2.2.2.2.1
      (by decide) (by decide) (by decide)).1
  · exact (C4_primary_request { initScanner with requestId := some "R0" }
      "u" "m" "R9" "net::ERR_FAILED" 0 [] none).2.2.2.2.2.2.1 (by decide)
  · exact ((C4_primary_request { initScanner with requestId := some "R0" }
      "u" "m" "R0" "net::ERR_FAILED" 0 [] none).2.2.2.2.2.2.2 rfl).1

/-! ## C2: are the failure fields write-once?

`set_failed` assigns unconditionally, so a second failure signal
overwrites `failed_reason` / `failed_exception` / `failed_traceback`:
the concrete run below receives a 404 on the primary request and then a
`loadingFailed` for the same request, and the recorded reason changes
from `status code` to `loading failed`. -/

def c2state : ScannerState := { initScanner with requestId := some "REQ" }

def c2afterStatus : ScannerState :=
  event_response_received c2state "https://example.org/" "text/html" 404 [] "REQ"

def c2afterBoth : ScannerState :=
  event_loading_failed c2afterStatus "REQ" "net::ERR_CONNECTION_RESET"

/-- C2 counterexample: after a 4xx failure has been recorded on the
primary request, a later `loadingFailed` signal for the same request
does not leave `failed_reason` and `failed_exception` unchanged — it
overwrites them, so the fields are not write-once. -/
theorem C2_counterexample :
    c2afterStatus.result.failed = true ∧
    c2afterStatus.result.failed_reason = some FAILED_REASON_STATUS_CODE ∧
    c2afterBoth.result.failed_reason = some FAILED_REASON_LOADING ∧
    c2afterBoth.result.failed_reason ≠ c2afterStatus.result.failed_reason ∧
    c2afterBoth.result.failed_exception ≠ c2afterStatus.result.failed_exception := by
  decide

/-- C2 amended: the `failed` flag is monotone (a failed session never
becomes unfailed through a later event), but the failure detail fields
follow last-writer-wins: every `set_failed` call overwrites
`failed_reason`, `failed_exception` and `failed_traceback` regardless
of any earlier recorded failure. -/
theorem C2_last_writer_wins (r : ResultState) (reason : String) (exc tb : Option String)
    (s : ScannerState) (u m rid err : String) (st : Nat) (hs : List HeaderEntry) :
    ((r.set_failed reason exc tb).failed = true ∧
     (r.set_failed reason exc tb).failed_reason = some reason ∧
     (r.set_failed reason exc tb).failed_exception = exc ∧
     (r.set_failed reason exc tb).failed_traceback = tb) ∧
    (s.result.failed = true →
      (event_response_received s u m st hs rid).result.failed = true) ∧
    (s.result.failed = true →
      (event_loading_failed s rid err).result.failed = true) := by
  refine ⟨⟨rfl, rfl, rfl, rfl⟩, ?_, ?_⟩
  · intro h
    simp only [event_response_received]
    split
    · simp [ResultState.set_failed]
    · simpa [ResultState.add_response] using h
  · intro h
    simp only [event_loading_failed]
    split
    · simp [ResultState.set_failed]
    · exact h

/-- Witness for the amended C2 at the concrete run of the
counterexample: the second failure signal keeps `failed` true and
rewrites the reason to the latest one. -/
theorem C2_last_writer_wins_witness :
    (c2afterStatus.result.set_failed "x" none none).failed_reason = some "x" ∧
    c2afterBoth.result.failed = true := by
  constructor
  · exact (C2_last_writer_wins c2afterStatus.result "x" none none
      c2state "u" "m" "r" "e" 0 []).1.2.1
  · exact (C2_last_writer_wins c2afterStatus.result "x" none none
      c2afterStatus "u" "m" "REQ" "net::ERR_CONNECTION_RESET" 0 []).2.2 (by decide)

/-! ## Waiting for the load event (scan.py lines 424-487)

`_wait_for_load_event` busy-polls in steps of 0.1 s; time is modelled in
deciseconds (one loop iteration = one step), so the 30-second budget is
300 steps.  `loadFiredAt` is the step during whose `tab.wait` the
`loadEventFired` callback sets `_is_loaded` (`none` if the event never
fires). -/

/-- `_is_loaded` as observed after `waited` steps. -/
def isLoadedAt (loadFiredAt : Option Nat) (waited : Nat) : Bool :=
  match loadFiredAt with
  | none => false
  | some t => t ≤ waited

/-- The polling loop `while not self._is_loaded and waited < load_event_timeout`
(lines 480-483).  `fuel` bounds the number of iterations; `timeout` fuel
always suffices when starting from `waited = 0`. -/
def waitLoop (loadFiredAt : Option Nat) (timeout : Nat) : Nat → Nat → Nat
  | 0, waited => waited
  | fuel + 1, waited =>
    if isLoadedAt loadFiredAt waited = false ∧ waited < timeout then
      waitLoop loadFiredAt timeout fuel (waited + 1)
    else waited

/-- `WebpageScanner._wait_for_load_event` (lines 478-487): run the poll
loop; if the whole budget elapsed, record `stopped_waiting` with reason
`load event` and call `Page.stopLoading` (the returned Bool).  The
`failed` fields are never touched here. -/
def wait_for_load_event (res : ResultState) (loadFiredAt : Option Nat)
    (timeout : Nat) : ResultState × Bool :=
  let waited := waitLoop loadFiredAt timeout timeout 0
  if timeout ≤ waited then (res.set_stopped_waiting "load event", true)
  else (res, false)

/-- `WebpageScanner._navigate_and_wait` (lines 424-438): a
`Page.navigate` timeout exception marks the scan failed with
`FAILED_REASON_TIMEOUT` (and no stop-loading call); otherwise, if an
event already failed the result, return; otherwise wait for the load
event with the 30 s (= 300 step) budget.  The returned Bool records
whether `Page.stopLoading` was called. -/
def navigate_and_wait (res : ResultState) (navigateOutcome : Except String Unit)
    (loadFiredAt : Option Nat) : ResultState × Bool :=
  match navigateOutcome with
  | Except.error excName => (res.set_failed FAILED_REASON_TIMEOUT (some excName) none, false)
  | Except.ok _ =>
    if res.failed then (res, false)
    else wait_for_load_event res loadFiredAt 300

/-- The poll loop exits at the step where the load event has fired,
capped at the timeout: starting from 0 with fuel = timeout it returns
`min t timeout` (or `timeout` when the event never fires). -/
theorem waitLoop_eval (t timeout : Nat) :
    waitLoop (some t) timeout timeout 0 = min t timeout
    ∧ waitLoop none timeout timeout 0 = timeout := by
  have hsome : ∀ fuel waited, waited ≤ timeout → timeout ≤ waited + fuel →
      waitLoop (some t) timeout fuel waited = if t ≤ waited then waited else min t timeout := by
    intro fuel
    induction fuel with
    | zero =>
      intro waited h1 h2
      simp only [waitLoop]
      by_cases ht : t ≤ waited
      · rw [if_pos ht]
      · rw [if_neg ht]
        omega
    | succ n ih =>
      intro waited h1 h2
      simp only [waitLoop]
      by_cases ht : t ≤ waited
      · have hl : isLoadedAt (some t) waited = true := by
          simp [isLoadedAt, ht]
        rw [if_neg (by simp [hl]), if_pos ht]
      · have hl : isLoadedAt (some t) waited = false := by
          simp [isLoadedAt, ht]
        by_cases hw : waited < timeout
        · rw [if_pos ⟨hl, hw⟩, ih (waited + 1) (by omega) (by omega), if_neg ht]
          by_cases ht1 : t ≤ waited + 1
          · rw [if_pos ht1]
            omega
          · rw [if_neg ht1]
        · rw [if_neg (fun hc => hw hc.2), if_neg ht]
          omega
  have hnone : ∀ fuel waited, waited ≤ timeout → timeout ≤ waited + fuel →
      waitLoop none timeout fuel waited = timeout := by
    intro fuel
    induction fuel with
    | zero =>
      intro waited h1 h2
      simp only [waitLoop]
      omega
    | succ n ih =>
      intro waited h1 h2
      simp only [waitLoop]
      have hl : isLoadedAt none waited = false := rfl
      by_cases hw : waited < timeout
      · rw [if_pos ⟨hl, hw⟩]
        exact ih (waited + 1) (by omega) (by omega)
      · rw [if_neg (fun hc => hw hc.2)]
        omega
  constructor
  · rw [hsome timeout 0 (by omega) (by omega)]
    by_cases ht : t ≤ 0
    · rw [if_pos ht]
      omega
    · rw [if_neg ht]
  · exact hnone timeout 0 (by omega) (by omega)

/-- C3 counterexample: when navigation succeeds but the load event never
fires within the 300-step (30 s) budget, the scan result is NOT failed
and carries no failure reason — it is merely marked `stopped_waiting`
with reason `load event` (and `Page.stopLoading` is called).  The claim
that this outcome is classified as the TIMEOUT failure
(`failed = true` with reason `Page.navigate timeout`) is therefore
false: that reason arises only from a timeout of the `Page.navigate`
call itself. -/
theorem C3_counterexample :
    (navigate_and_wait initResult (Except.ok ()) none).1.failed = false ∧
    (navigate_and_wait initResult (Except.ok ()) none).1.failed_reason = none ∧
    (navigate_and_wait initResult (Except.ok ()) none).1.stopped_waiting = true ∧
    (navigate_and_wait initResult (Except.ok ()) none).1.stopped_waiting_reason
      = some "load event" ∧
    (navigate_and_wait initResult (Except.ok ()) none).2 = true := by
  have h300 : waitLoop none 300 300 0 = 300 := (waitLoop_eval 0 300).2
  simp [navigate_and_wait, wait_for_load_event, h300, initResult,
    ResultState.set_stopped_waiting]

/-- C3 amended: if the `Page.navigate` call itself times out, the scan
is failed with reason `Page.navigate timeout` and no stop-loading call
is made.  If navigation succeeds but the load event does not fire
within the 30-second (300-step) budget, the result records
`stopped_waiting` with reason `load event` and the tab's loading is
explicitly stopped via `Page.stopLoading`; the `failed`/`failed_reason`
fields are untouched by this path.  If the load event fires within the
budget, nothing is recorded and no stop-loading call is made. -/
theorem C3_load_event_budget (res : ResultState) (excName : String)
    (loadFiredAt : Option Nat) :
    (navigate_and_wait res (Except.error excName) loadFiredAt
      = (res.set_failed FAILED_REASON_TIMEOUT (some excName) none, false)) ∧
    (res.failed = false → (loadFiredAt = none ∨ ∃ t, loadFiredAt = some t ∧ 300 ≤ t) →
      navigate_and_wait res (Except.ok ()) loadFiredAt
        = (res.set_stopped_waiting "load event", true)) ∧
    (res.failed = false → ∀ t, loadFiredAt = some t → t < 300 →
      navigate_and_wait res (Except.ok ()) loadFiredAt = (res, false)) ∧
    ((res.set_stopped_waiting "load event").failed = res.failed ∧
     (res.set_stopped_waiting "load event").failed_reason = res.failed_reason) := by
  refine ⟨rfl, ?_, ?_, rfl, rfl⟩
  · intro hf hcase
    simp only [navigate_and_wait, hf, Bool.false_eq_true, if_false, wait_for_load_event]
    rcases hcase with h | ⟨t, ht, h300⟩
    · subst h
      rw [(waitLoop_eval 0 300).2, if_pos (by omega)]
    · subst ht
      rw [(waitLoop_eval t 300).1, if_pos (by omega)]
  · intro hf t ht hlt
    subst ht
    simp only [navigate_and_wait, hf, Bool.false_eq_true, if_false, wait_for_load_event]
    rw [(waitLoop_eval t 300).1, if_neg (by omega)]

/-- Witness for the amended C3 at concrete inputs: never-firing load
event gives `stopped_waiting` (not failed); a load event at step 20
leaves the result untouched; a navigate timeout gives the TIMEOUT
failure without stop-loading. -/
theorem C3_load_event_budget_witness :
    navigate_and_wait initResult (Except.ok ()) none
      = (initResult.set_stopped_waiting "load event", true) ∧
    navigate_and_wait initResult (Except.ok ()) (some 20) = (initResult, false) ∧
    navigate_and_wait initResult (Except.error "TimeoutException") none
      = (initResult.set_failed FAILED_REASON_TIMEOUT (some "TimeoutException") none, false) := by
  refine ⟨?_, ?_, ?_⟩
  · exact (C3_load_event_budget initResult "TimeoutException" none).2.1 rfl (Or.inl rfl)
  · exact (C3_load_event_budget initResult "TimeoutException" (some 20)).2.2.1 rfl 20 rfl
      (by omega)
  · exact (C3_load_event_budget initResult "TimeoutException" none).1

/-! ## Python substring containment

`needle in hay` on Python strings, as character-list containment. -/

/-- Whether `needle` is an initial segment of `hay`. -/
def charsStartWith : List Char → List Char → Bool
  | [], _ => true
  | _ :: _, [] => false
  | c :: cs, d :: ds => c == d && charsStartWith cs ds

/-- Whether `needle` occurs contiguously anywhere in `hay`. -/
def charsContain (needle : List Char) : List Char → Bool
  | [] => charsStartWith needle []
  | d :: ds => charsStartWith needle (d :: ds) || charsContain needle ds

/-- Python `needle in hay` for strings. -/
def strContains (hay needle : String) : Bool := charsContain needle.data hay.data

theorem charsStartWith_iff : ∀ needle hay : List Char,
    charsStartWith needle hay = true ↔ needle <+: hay := by
  intro needle
  induction needle with
  | nil =>
    intro hay
    simp [charsStartWith]
  | cons c cs ih =>
    intro hay
    cases hay with
    | nil =>
      simp [charsStartWith]
    | cons d ds =>
      simp [charsStartWith, List.cons_prefix_cons, ih, And.comm]

theorem charsContain_iff (needle : List Char) : ∀ hay : List Char,
    charsContain needle hay = true ↔ needle <:+: hay := by
  intro hay
  induction hay with
  | nil =>
    simp [charsContain, charsStartWith_iff, List.infix_nil, List.prefix_nil]
  | cons d ds ih =>
    simp [charsContain, charsStartWith_iff, ih, List.infix_cons_iff]

/-! ## AdblockPlusFilter rule applicability (scan.py lines 278-311)

A parsed filter rule carries its CSS selector value and the parsed
option list; the `domain` option's value is a list of
`(domain, applicable)` pairs, `applicable = False` marking an exclusion
entry (`~domain`).  Non-`domain` options are carried with the same
value shape, which the matcher never inspects. -/

structure AbpRule where
  selectorValue : String
  options : List (String × List (String × Bool))
deriving DecidableEq

/-- `AdblockPlusFilter._is_rule_applicable` (scan.py lines 290-311). -/
def is_rule_applicable (rule : AbpRule) (domain : String) : Bool :=
  let domain_options := rule.options.filter (fun kv => kv.1 == "domain")
  match domain_options with
  | [] => true
  | (_, domains) :: _ =>
    let incl := domains.filter (fun p => p.2 == true)
    if incl.length = 0 then true
    else incl.any (fun p => strContains domain p.1)

theorem find?_eq_head_of_filter {α : Type} (p : α → Bool) (l : List α) :
    l.find? p = (l.filter p).head? := by
  induction l with
  | nil => rfl
  | cons a t ih =>
    rcases hb : p a with _ | _
    · rw [List.find?_cons_of_neg _ (by simp [hb]), List.filter_cons_of_neg (by simp [hb]), ih]
    · rw [List.find?_cons_of_pos _ hb, List.filter_cons_of_pos hb]
      rfl

/-- C5: a rule with no `domain` option always applies; a rule whose
`domain` option consists only of exclusion entries also always applies
(exclusions are discarded); otherwise the rule applies iff the domain
string contains at least one inclusion entry as a substring. -/
theorem C5_rule_applicability (rule : AbpRule) (domain : String) :
    is_rule_applicable rule domain = true ↔
      (match rule.options.find? (fun kv => kv.1 == "domain") with
      | none => True
      | some kv =>
        (∀ p ∈ kv.2, p.2 = false) ∨
        (∃ p ∈ kv.2, p.2 = true ∧ p.1.data <:+: domain.data)) := by
  rw [find?_eq_head_of_filter]
  simp only [is_rule_applicable]
  cases hf : rule.options.filter (fun kv => kv.1 == "domain") with
  | nil =>
    simp
  | cons kv rest =>
    simp only [List.head?]
    by_cases hempty : kv.2.filter (fun p => p.2 == true) = []
    · have hlen : (kv.2.filter (fun p => p.2 == true)).length = 0 := by
        rw [hempty]
        rfl
      have hall : ∀ p ∈ kv.2, p.2 = false := by
        intro p hp
        have := List.filter_eq_nil_iff.mp hempty p hp
        rcases hb : p.2 with _ | _
        · rfl
        · exact absurd (by simp [hb]) this
      rcases kv with ⟨k, doms⟩
      simp only [hlen, if_pos rfl]
      simpa using Or.inl hall
    · have hlen : ¬(kv.2.filter (fun p => p.2 == true)).length = 0 := by
        intro h
        exact hempty (List.length_eq_zero.mp h)
      rcases kv with ⟨k, doms⟩
      simp only [hlen, if_neg hlen]
      constructor
      · intro hany
        rcases List.any_eq_true.mp hany with ⟨p, hp, hc⟩
        have hmem := List.mem_filter.mp hp
        refine Or.inr ⟨p, hmem.1, by simpa using hmem.2, ?_⟩
        exact (charsContain_iff p.1.data domain.data).mp hc
      · intro hor
        rcases hor with hall | ⟨p, hp, htrue, hinf⟩
        · exact absurd (List.filter_eq_nil_iff.mpr (fun p hp => by simp [hall p hp])) hempty
        · refine List.any_eq_true.mpr ⟨p, List.mem_filter.mpr ⟨hp, by simp [htrue]⟩, ?_⟩
          exact (charsContain_iff p.1.data domain.data).mpr hinf

/-- Witness for C5 at concrete rules: a rule with no domain option and a
rule with only the exclusion `~example.com` both apply to `example.com`
and to `other.com`; a rule with inclusion `shop.example` applies to
`www.shop.example.org` and not to `other.com`. -/
theorem C5_rule_applicability_witness :
    is_rule_applicable { selectorValue := "#cookie", options := [] } "example.com" = true ∧
    is_rule_applicable
      { selectorValue := "#cookie", options := [("domain", [("example.com", false)])] }
      "example.com" = true ∧
    is_rule_applicable
      { selectorValue := "#cookie", options := [("domain", [("example.com", false)])] }
      "other.com" = true ∧
    is_rule_applicable
      { selectorValue := "#cookie", options := [("domain", [("shop.example", true)])] }
      "www.shop.example.org" = true ∧
    is_rule_applicable
      { selectorValue := "#cookie", options := [("domain", [("shop.example", true)])] }
      "other.com" = false := by
  refine ⟨?_, ?_, ?_, ?_, ?_⟩
  · exact (C5_rule_applicability { selectorValue := "#cookie", options := [] }
      "example.com").mpr (by simp)
  · exact (C5_rule_applicability
      { selectorValue := "#cookie", options := [("domain", [("example.com", false)])] }
      "example.com").mpr (by simp)
  · exact (C5_rule_applicability
      { selectorValue := "#cookie", options := [("domain", [("example.com", false)])] }
      "other.com").mpr (by simp)
  · exact (C5_rule_applicability
      { selectorValue := "#cookie", options := [("domain", [("shop.example", true)])] }
      "www.shop.example.org").mpr (by
        refine Or.inr ⟨("shop.example", true), by simp, rfl, ?_⟩
        decide)
  · rcases hb : is_rule_applicable
      { selectorValue := "#cookie", options := [("domain", [("shop.example", true)])] }
      "other.com" with _ | _
    · rfl
    · have := (C5_rule_applicability
        { selectorValue := "#cookie", options := [("domain", [("shop.example", true)])] }
        "other.com").mp hb
      simp only [List.find?] at this
      rcases this with hall | ⟨p, hp, htrue, hinf⟩
      · simpa using hall ("shop.example", true) (by simp)
      · have hpe : p = ("shop.example", true) := by
          simpa using hp
        subst hpe
        exact absurd hinf (by decide)

/-! ## Cookie-notice maps of WebpageResult (scan.py lines 80-82, 133-135)

Python dicts preserve insertion order; an assignment `d[k] = v`
replaces the value in place when the key exists and appends otherwise.
The element type of a notice list is abstract. -/

/-- Python dict assignment `d[k] = v` on an association list. -/
def dictInsert {α : Type} (m : List (String × α)) (k : String) (v : α) :
    List (String × α) :=
  if m.any (fun kv => kv.1 == k) then
    m.map (fun kv => if kv.1 == k then (k, v) else kv)
  else m ++ [(k, v)]

structure CookieNoticeMaps (α : Type) where
  cookie_notice_count : List (String × Nat)
  cookie_notices : List (String × List α)
deriving DecidableEq

def initCookieNoticeMaps (α : Type) : CookieNoticeMaps α := ⟨[], []⟩

/-- `WebpageResult.add_cookie_notices` (scan.py lines 133-135): set the
count entry to the length of the list and the notices entry to the
list, under the same key. -/
def add_cookie_notices {α : Type} (st : CookieNoticeMaps α)
    (detection_technique : String) (notices : List α) : CookieNoticeMaps α :=
  { cookie_notice_count :=
      dictInsert st.cookie_notice_count detection_technique notices.length,
    cookie_notices := dictInsert st.cookie_notices detection_technique notices }

theorem dictInsert_map_value {α β : Type} (f : α → β) (m : List (String × α))
    (k : String) (v : α) :
    (dictInsert m k v).map (fun kv => (kv.1, f kv.2))
      = dictInsert (m.map (fun kv => (kv.1, f kv.2))) k (f v) := by
  have hany : ((m.map (fun kv => (kv.1, f kv.2))).any fun kv => kv.1 == k)
      = m.any (fun kv => kv.1 == k) := by
    induction m with
    | nil => rfl
    | cons kv rest ih => simp [ih]
  simp only [dictInsert, hany]
  by_cases h : m.any (fun kv => kv.1 == k) = true
  · rw [if_pos h, if_pos h, List.map_map, List.map_map]
    refine List.map_congr_left ?_
    intro kv _
    by_cases hk : (kv.1 == k) = true
    · simp [Function.comp, hk]
    · have hk2 : (kv.1 == k) = false := by
        rcases hb : kv.1 == k with _ | _
        · rfl
        · exact absurd hb hk
      simp [Function.comp, hk2]
  · rw [if_neg h, if_neg h, List.map_append]
    rfl

theorem lookup_map_value {α β : Type} (f : α → β) (m : List (String × α)) (t : String) :
    (m.map (fun kv => (kv.1, f kv.2))).lookup t = (m.lookup t).map f := by
  induction m with
  | nil => rfl
  | cons kv rest ih =>
    by_cases h : t == kv.1
    · simp [List.lookup, h]
    · have h2 : (t == kv.1) = false := by
        rcases hb : t == kv.1 with _ | _
        · rfl
        · exact absurd hb h
      simp [List.lookup, h2, ih]

/-- C10: after any sequence of `add_cookie_notices` calls starting from
the fresh result maps, the count map is exactly the notices map with
each list replaced by its length; hence the two maps have the same key
sequence, and for every technique key the stored count equals the
length of the stored notice list. -/
theorem C10_count_invariant (α : Type) (ops : List (String × List α)) :
    ((ops.foldl (fun st op => add_cookie_notices st op.1 op.2)
        (initCookieNoticeMaps α)).cookie_notice_count
      = (ops.foldl (fun st op => add_cookie_notices st op.1 op.2)
          (initCookieNoticeMaps α)).cookie_notices.map (fun kv => (kv.1, kv.2.length))) ∧
    ((ops.foldl (fun st op => add_cookie_notices st op.1 op.2)
        (initCookieNoticeMaps α)).cookie_notice_count.map Prod.fst
      = (ops.foldl (fun st op => add_cookie_notices st op.1 op.2)
          (initCookieNoticeMaps α)).cookie_notices.map Prod.fst) ∧
    (∀ t, (ops.foldl (fun st op => add_cookie_notices st op.1 op.2)
        (initCookieNoticeMaps α)).cookie_notice_count.lookup t
      = ((ops.foldl (fun st op => add_cookie_notices st op.1 op.2)
          (initCookieNoticeMaps α)).cookie_notices.lookup t).map List.length) := by
  have main : ∀ (ops : List (String × List α)) (st : CookieNoticeMaps α),
      st.cookie_notice_count = st.cookie_notices.map (fun kv => (kv.1, kv.2.length)) →
      (ops.foldl (fun st op => add_cookie_notices st op.1 op.2) st).cookie_notice_count
        = (ops.foldl (fun st op => add_cookie_notices st op.1 op.2)
            st).cookie_notices.map (fun kv => (kv.1, kv.2.length)) := by
    intro ops
    induction ops with
    | nil =>
      intro st h
      exact h
    | cons op rest ih =>
      intro st h
      refine ih (add_cookie_notices st op.1 op.2) ?_
      simp only [add_cookie_notices, h]
      rw [dictInsert_map_value]
  have h1 := main ops (initCookieNoticeMaps α) rfl
  refine ⟨h1, ?_, ?_⟩
  · rw [h1, List.map_map]
    rfl
  · intro t
    rw [h1, lookup_map_value]

/-! ## Visibility oracle (scan.py lines 1222-1310, the `isVisible` JS)

A DOM node is a style/geometry record plus children.  `isElement`
models `elem instanceof Element` (text nodes fail it);
`hitTestSelf` models the outcome of the
`document.elementFromPoint(center)` parent-chain walk (a page-global
hit-test, supplied as part of the node state); the remaining fields are
the computed-style and bounding-rect values the JS reads.  Lengths are
rationals (JS numbers). -/

structure NodeData where
  isElement : Bool
  display : String
  opacity : ℚ
  visibility : String
  offsetWidth : ℚ
  offsetHeight : ℚ
  rectLeft : ℚ
  rectTop : ℚ
  rectWidth : ℚ
  rectHeight : ℚ
  hitTestSelf : Bool

inductive DomNode where
  | node (data : NodeData) (children : List DomNode)

/-- The `visible` flag of the JS after the four geometric checks
(zero total box, box smaller than 10px, center outside the viewport),
given viewport extent `vw × vh`. -/
def geometryVisible (vw vh : ℚ) (d : NodeData) : Bool :=
  let v1 := if d.offsetWidth + d.offsetHeight + d.rectHeight + d.rectWidth = 0 then false else true
  let v2 := if d.offsetWidth < 10 ∨ d.offsetHeight < 10 then false else v1
  let cx := d.rectLeft + d.offsetWidth / 2
  let cy := d.rectTop + d.offsetHeight / 2
  let v3 := if cx < 0 then false else v2
  let v4 := if cx > vw then false else v3
  let v5 := if cy < 0 then false else v4
  let v6 := if cy > vh then false else v5
  v6

mutual
/-- The recursive JS `isVisible` (lines 1227-1277): `none` models the
JS returning `false`; `some n` models it returning the element `n`
(the node itself when its own hit-test succeeds, or the first visible
descendant found in document order). -/
def isVisible (vw vh : ℚ) : DomNode → Option DomNode
  | DomNode.node d cs =>
    if d.isElement = false then none
    else if d.display == "none" then none
    else if d.opacity < 1/10 then none
    else if (d.visibility == "visible") = false then none
    else if geometryVisible vw vh d && d.hitTestSelf then some (DomNode.node d cs)
    else if geometryVisible vw vh d = false then firstVisibleChild vw vh cs
    else none

/-- The `for` loop over `elem.childNodes` (lines 1266-1274): the first
child whose recursive result is truthy is returned. -/
def firstVisibleChild (vw vh : ℚ) : List DomNode → Option DomNode
  | [] => none
  | c :: cs =>
    match isVisible vw vh c with
    | some n => some n
    | none => firstVisibleChild vw vh cs
end

/-- C8: a node whose computed style has `display:none`, opacity below
0.1, or a `visibility` other than `visible` is reported invisible
immediately, whatever its children are (no descendant is consulted);
when the style checks pass and the node is geometrically sound, the
answer depends only on the node's own hit-test, again without
consulting children; the recursive descendant search runs exactly when
the style checks pass but the node is geometrically degenerate. -/
theorem C8_visibility_shortcircuit (vw vh : ℚ) (d : NodeData) (cs : List DomNode) :
    ((d.display = "none" ∨ d.opacity < 1/10 ∨ d.visibility ≠ "visible") →
      ∀ cs2 : List DomNode, isVisible vw vh (DomNode.node d cs2) = none) ∧
    (d.isElement = true → d.display ≠ "none" → ¬(d.opacity < 1/10) →
      d.visibility = "visible" → geometryVisible vw vh d = true →
      isVisible vw vh (DomNode.node d cs)
        = (if d.hitTestSelf = true then some (DomNode.node d cs) else none)) ∧
    (d.isElement = true → d.display ≠ "none" → ¬(d.opacity < 1/10) →
      d.visibility = "visible" → geometryVisible vw vh d = false →
      isVisible vw vh (DomNode.node d cs) = firstVisibleChild vw vh cs) := by
  refine ⟨?_, ?_, ?_⟩
  · intro hstyle cs2
    by_cases he : d.isElement = false
    · simp only [isVisible]
      rw [if_pos he]
    · simp only [isVisible]
      rw [if_neg he]
      rcases hstyle with h | h | h
      · rw [if_pos (by simp [h])]
      · by_cases hdisp : d.display = "none"
        · rw [if_pos (by simp [hdisp])]
        · rw [if_neg (by simp [hdisp]), if_pos h]
      · by_cases hdisp : d.display = "none"
        · rw [if_pos (by simp [hdisp])]
        · rw [if_neg (by simp [hdisp])]
          by_cases hop : d.opacity < 1/10
          · rw [if_pos hop]
          · rw [if_neg hop, if_pos (by simp [h])]
  · intro he h1 h2 h3 h4
    simp only [isVisible]
    rw [if_neg (by simp [he]), if_neg (by simp [h1]), if_neg h2, if_neg (by simp [h3])]
    by_cases hh : d.hitTestSelf = true
    · rw [if_pos (by simp [h4, hh]), if_pos hh]
    · rw [if_neg (by simp [hh]), if_neg (by simp [h4]), if_neg hh]
  · intro he h1 h2 h3 h4
    simp only [isVisible]
    rw [if_neg (by simp [he]), if_neg (by simp [h1]), if_neg h2, if_neg (by simp [h3]),
      if_neg (by simp [h4]), if_pos h4]

/-- A `display:none` container with a large, on-screen, fully styled
child. -/
def exHiddenParent : NodeData :=
  { isElement := true, display := "none", opacity := 1, visibility := "visible",
    offsetWidth := 800, offsetHeight := 400, rectLeft := 0, rectTop := 0,
    rectWidth := 800, rectHeight := 400, hitTestSelf := true }

/-- A large visible block element inside the viewport. -/
def exVisibleChild : NodeData :=
  { isElement := true, display := "block", opacity := 1, visibility := "visible",
    offsetWidth := 800, offsetHeight := 400, rectLeft := 0, rectTop := 0,
    rectWidth := 800, rectHeight := 400, hitTestSelf := true }

/-- Witness for C8 on a 1000 × 600 viewport: the `display:none` parent
is invisible even though its child, on its own, is visible. -/
theorem C8_visibility_shortcircuit_witness :
    isVisible 1000 600
      (DomNode.node exHiddenParent [DomNode.node exVisibleChild []]) = none ∧
    isVisible 1000 600 (DomNode.node exVisibleChild [])
      = some (DomNode.node exVisibleChild []) := by
  constructor
  · exact (C8_visibility_shortcircuit 1000 600 exHiddenParent []).1
      (Or.inl rfl) [DomNode.node exVisibleChild []]
  · have h := (C8_visibility_shortcircuit 1000 600 exVisibleChild []).2.1
      rfl (by decide) (by norm_num [exVisibleChild]) rfl
      (by norm_num [geometryVisible, exVisibleChild])
    simpa using h

/-! ## Error handling of the detection heuristics (C9)

A remote-protocol interaction inside a heuristic either yields its
payload or raises; this is the `Except ExcInfo` parameter.  The
heuristics that wrap their protocol calls in a
`try/except CallMethodException` handler (`_find_fixed_parent`,
`_find_full_width_parent`, `find_clickables_in_node`,
`is_node_visible`) are embedded with their concrete error branch;
`find_cookie_notices_by_rules` (scan.py lines 1063-1089) and
`is_page_modal` (lines 1317-1371) have no handler, so an exception
there escapes to the top-level handler of `scan` (lines 347-348), which
marks the whole scan failed. -/

structure ExcInfo where
  message : String
  excName : String
  tb : List String
deriving DecidableEq

/-- The warning dict every `except` block appends (message, exception
class name, traceback lines, originating method name). -/
def warningOf (e : ExcInfo) (method : String) : Warning :=
  { message := e.message, exception := e.excName, tb := e.tb, method := method }

structure FixedParentProbe where
  result_node_id : Nat
  is_html : Bool
  frame_is_root : Bool
  frame_owner_node_id : Nat
deriving DecidableEq

structure FixedParentResult where
  has_fixed_parent : Bool
  fixed_parent : Option Nat
deriving DecidableEq

/-- `WebpageScanner._find_fixed_parent` (scan.py lines 1001-1056): on a
successful call sequence the probe describes whether the returned node
is an `html` element and whether its frame is the root frame; a
`CallMethodException` is caught, recorded as a warning tagged
`_find_fixed_parent`, and the heuristic degrades to "no fixed
parent". -/
def find_fixed_parent (res : ResultState) (call : Except ExcInfo FixedParentProbe) :
    FixedParentResult × ResultState :=
  match call with
  | Except.ok p =>
    if p.is_html then
      if p.frame_is_root then
        ({ has_fixed_parent := false, fixed_parent := none }, res)
      else
        ({ has_fixed_parent := true, fixed_parent := some p.frame_owner_node_id }, res)
    else ({ has_fixed_parent := true, fixed_parent := some p.result_node_id }, res)
  | Except.error e =>
    ({ has_fixed_parent := false, fixed_parent := none },
     res.add_warning (warningOf e "_find_fixed_parent"))

inductive FullWidthProbe where
  | boolean (value : Bool)
  | elementNode (node_id : Nat)
deriving DecidableEq

structure FullWidthResult where
  parent_node_exists : Bool
  parent_node : Option Nat
deriving DecidableEq

/-- `WebpageScanner._find_full_width_parent` (scan.py lines 881-986):
a boolean JS result means no full-width parent; an element result is
the parent; a `CallMethodException` is caught, recorded as a warning
tagged `_find_full_width_parent`, and degrades to "no parent". -/
def find_full_width_parent (res : ResultState) (call : Except ExcInfo FullWidthProbe) :
    FullWidthResult × ResultState :=
  match call with
  | Except.ok (FullWidthProbe.boolean v) =>
    ({ parent_node_exists := v, parent_node := none }, res)
  | Except.ok (FullWidthProbe.elementNode nid) =>
    ({ parent_node_exists := true, parent_node := some nid }, res)
  | Except.error e =>
    ({ parent_node_exists := false, parent_node := none },
     res.add_warning (warningOf e "_find_full_width_parent"))

/-- `WebpageScanner.find_clickables_in_node` (scan.py lines 1106-1145):
a `CallMethodException` is caught, recorded as a warning tagged
`find_clickables_in_node`, and degrades to the empty clickable list. -/
def find_clickables_in_node (res : ResultState) (call : Except ExcInfo (List Nat)) :
    List Nat × ResultState :=
  match call with
  | Except.ok node_ids => (node_ids, res)
  | Except.error e => ([], res.add_warning (warningOf e "find_clickables_in_node"))

structure VisibilityAnswer where
  is_visible : Bool
  visible_node : Option Nat
deriving DecidableEq

/-- The Python wrapper of `is_node_visible` (scan.py lines 1283-1310):
a boolean JS result (always `false`) means invisible, an element result
means visible with that node; a `CallMethodException` is caught,
recorded as a warning tagged `is_node_visible`, and degrades to
invisible. -/
def is_node_visible_call (res : ResultState) (call : Except ExcInfo (Option Nat)) :
    VisibilityAnswer × ResultState :=
  match call with
  | Except.ok (some nid) => ({ is_visible := true, visible_node := some nid }, res)
  | Except.ok none => ({ is_visible := false, visible_node := none }, res)
  | Except.error e =>
    ({ is_visible := false, visible_node := none },
     res.add_warning (warningOf e "is_node_visible"))

/-- The rule-based detection step as it sits inside `scan`
(scan.py lines 340, 620-632, 1063-1089, 347-348):
`find_cookie_notices_by_rules` performs `Runtime.evaluate` with no
handler, so a failing call propagates to `scan`'s generic `except`,
which calls `set_failed(str(e), type(e).__name__, format_exc())` — no
warning is recorded and no node list is produced. -/
def detect_by_rules_in_scan (res : ResultState) (call : Except ExcInfo (List Nat)) :
    ResultState × Option (List Nat) :=
  match call with
  | Except.ok node_ids => (res, some node_ids)
  | Except.error e =>
    (res.set_failed e.message (some e.excName) (some (String.intercalate "\n" e.tb)), none)

def exProtocolError : ExcInfo :=
  { message := "calling method failed", excName := "CallMethodException",
    tb := ["Traceback (most recent call last):"] }

/-- C9 counterexample: a single failing remote call inside the
rule-based detection heuristic (`find_cookie_notices_by_rules` has no
handler) is not caught at the call site: it aborts the scan session
(`failed = true`), records no warning, and produces no degraded empty
result — contradicting the claim that every such failure is caught and
downgraded. -/
theorem C9_counterexample :
    (detect_by_rules_in_scan initResult (Except.error exProtocolError)).1.failed = true ∧
    (detect_by_rules_in_scan initResult (Except.error exProtocolError)).1.warnings = [] ∧
    (detect_by_rules_in_scan initResult (Except.error exProtocolError)).2 = none := by
  exact ⟨rfl, rfl, rfl⟩

/-- C9 amended: the heuristics that wrap their remote calls in a
handler (`_find_fixed_parent`, `_find_full_width_parent`,
`find_clickables_in_node`, `is_node_visible`) catch the failure at the
call site, record a structured warning carrying the originating method
name and the exception name and trace, and return an empty/null result;
but `find_cookie_notices_by_rules` (and likewise `is_page_modal` when
reached outside another heuristic's handler) has no call-site handler:
the failure escapes to the top-level `scan` handler, which marks the
scan failed with the exception's message/name/trace and records no
warning. -/
theorem C9_call_site_handling (res : ResultState) (e : ExcInfo) :
    (find_fixed_parent res (Except.error e)
      = ({ has_fixed_parent := false, fixed_parent := none },
         res.add_warning { message := e.message, exception := e.excName, tb := e.tb,
                           method := "_find_fixed_parent" })) ∧
    (find_full_width_parent res (Except.error e)
      = ({ parent_node_exists := false, parent_node := none },
         res.add_warning { message := e.message, exception := e.excName, tb := e.tb,
                           method := "_find_full_width_parent" })) ∧
    (find_clickables_in_node res (Except.error e)
      = ([], res.add_warning { message := e.message, exception := e.excName, tb := e.tb,
                               method := "find_clickables_in_node" })) ∧
    (is_node_visible_call res (Except.error e)
      = ({ is_visible := false, visible_node := none },
         res.add_warning { message := e.message, exception := e.excName, tb := e.tb,
                           method := "is_node_visible" })) ∧
    (detect_by_rules_in_scan res (Except.error e)
      = (res.set_failed e.message (some e.excName)
          (some (String.intercalate "\n" e.tb)), none)) ∧
    ((detect_by_rules_in_scan res (Except.error e)).1.warnings = res.warnings) := by
  exact ⟨rfl, rfl, rfl, rfl, rfl, rfl⟩

/-! ## Modality checker (scan.py lines 1317-1371, the `modal` JS)

Sample positions carry their build index (`idx`), modelling JS object
identity: `indexOf` inside the removal loop finds elements by
reference, and the eight built objects are pairwise distinct.  The
source computes `viewportHorizontalCenter` but never uses it: the 4th
and 5th sample positions use `viewportVerticalCenter` (= height / 2)
as their x-coordinate.  The removal loop splices while iterating
forward, so the element following a removed one is never examined. -/

structure TestPos where
  idx : Nat
  x : ℚ
  y : ℚ
deriving DecidableEq

/-- The `testPositions` array (lines 1330-1339), margin 5. -/
def testPositions (vw vh : ℚ) : List TestPos :=
  [ ⟨0, 5, 5⟩, ⟨1, 5, vh / 2⟩, ⟨2, 5, vh - 5⟩, ⟨3, vh / 2, 5⟩,
    ⟨4, vh / 2, vh - 5⟩, ⟨5, vw - 5, 5⟩, ⟨6, vw - 5, vh / 2⟩, ⟨7, vw - 5, vh - 5⟩ ]

inductive Dim where
  | full
  | px (value : ℚ)
deriving DecidableEq

structure NoticeRegion where
  x : ℚ
  y : ℚ
  width : Dim
  height : Dim
deriving DecidableEq

/-- The `if (cookieNotice.width == 'full') cookieNotice.width = viewportWidth`
normalisation (lines 1342-1347). -/
def resolveDim (viewportExtent : ℚ) : Dim → ℚ
  | Dim.full => viewportExtent
  | Dim.px v => v

/-- The bounding-box test of the removal loop (lines 1350-1351). -/
def insideNotice (vw vh : ℚ) (cn : NoticeRegion) (p : TestPos) : Bool :=
  let w := resolveDim vw cn.width
  let h := resolveDim vh cn.height
  decide (cn.x ≤ p.x ∧ p.x ≤ cn.x + w ∧ cn.y ≤ p.y ∧ p.y ≤ cn.y + h)

/-- The removal loop (lines 1348-1355): `for (i = 0; i < length; i++)`
with `splice(indexOf(p), 1)` inside the body — the index keeps
advancing after a removal, so the element that slid into the removed
slot is skipped.  `ps.get? i = none` is the JS loop exit
`i < testPositions.length` failing. -/
def spliceLoop (inside : TestPos → Bool) : Nat → List TestPos → Nat → List TestPos
  | 0, ps, _ => ps
  | fuel + 1, ps, i =>
    match ps.get? i with
    | none => ps
    | some p =>
      if inside p then spliceLoop inside fuel (ps.erase p) (i + 1)
      else spliceLoop inside fuel ps (i + 1)

/-- Sample-point removal for an optional notice region (lines 1341-1356). -/
def removeCoveredPositions (vw vh : ℚ) (cn : Option NoticeRegion) (ps : List TestPos) :
    List TestPos :=
  match cn with
  | none => ps
  | some n => spliceLoop (insideNotice vw vh n) ps.length ps 0

/-- The comparison loop (lines 1358-1367): hit-test every remaining
point and compare with the previous container; `efp` is the
`document.elementFromPoint` oracle (topmost element id at a point). -/
def sameContainerFrom (efp : ℚ → ℚ → Nat) (prev : Nat) : List TestPos → Bool
  | [] => true
  | p :: rest =>
    if efp p.x p.y ≠ prev then false else sameContainerFrom efp (efp p.x p.y) rest

/-- `WebpageScanner.is_page_modal` (lines 1317-1371): `none` models the
JS evaluation throwing on an empty remaining list
(`testPositions[0]` undefined). -/
def is_page_modal (efp : ℚ → ℚ → Nat) (vw vh : ℚ) (cn : Option NoticeRegion) :
    Option Bool :=
  match removeCoveredPositions vw vh cn (testPositions vw vh) with
  | [] => none
  | p :: rest => some (sameContainerFrom efp (efp p.x p.y) rest)

/-- A candidate notice covering the full viewport. -/
def fullNotice : NoticeRegion := ⟨0, 0, Dim.full, Dim.full⟩

/-- The sample positions on a 1000 × 600 viewport: the 4th and 5th
entries sit at x = 300 (= height / 2), not at the horizontal centre
x = 500. -/
theorem testPositions_eval : testPositions 1000 600
    = [⟨0, 5, 5⟩, ⟨1, 5, 300⟩, ⟨2, 5, 595⟩, ⟨3, 300, 5⟩, ⟨4, 300, 595⟩,
       ⟨5, 995, 5⟩, ⟨6, 995, 300⟩, ⟨7, 995, 595⟩] := by
  norm_num [testPositions]

/-- C7 (code bug, concrete evaluation at viewport 1000 × 600 with a
notice covering the whole viewport): the top- and bottom-edge
midpoints (x = 500) are never sampled — the code samples (300, 5) and
(300, 595) because `viewportVerticalCenter` is used as the
x-coordinate while `viewportHorizontalCenter` is computed but unused;
and the removal loop, which splices while iterating forward, leaves
four sample points (indices 1, 3, 5, 7) even though every one of the
eight lies inside the candidate's bounding box, so not every covered
sample point is removed.  A constant hit-test oracle then still
reports the page modal from those four points. -/
theorem C7_code_bug :
    testPositions 1000 600
      = [⟨0, 5, 5⟩, ⟨1, 5, 300⟩, ⟨2, 5, 595⟩, ⟨3, 300, 5⟩, ⟨4, 300, 595⟩,
         ⟨5, 995, 5⟩, ⟨6, 995, 300⟩, ⟨7, 995, 595⟩] ∧
    (⟨3, 500, 5⟩ : TestPos) ∉ testPositions 1000 600 ∧
    (⟨4, 500, 595⟩ : TestPos) ∉ testPositions 1000 600 ∧
    removeCoveredPositions 1000 600 (some fullNotice) (testPositions 1000 600)
      = [⟨1, 5, 300⟩, ⟨3, 300, 5⟩, ⟨5, 995, 5⟩, ⟨7, 995, 595⟩] ∧
    insideNotice 1000 600 fullNotice ⟨1, 5, 300⟩ = true ∧
    is_page_modal (fun _ _ => 7) 1000 600 (some fullNotice) = some true := by
  have hsplice : removeCoveredPositions 1000 600 (some fullNotice) (testPositions 1000 600)
      = [⟨1, 5, 300⟩, ⟨3, 300, 5⟩, ⟨5, 995, 5⟩, ⟨7, 995, 595⟩] := by
    rw [removeCoveredPositions, testPositions_eval]
    simp only [spliceLoop, List.get?]
    norm_num [insideNotice, resolveDim, fullNotice, List.erase_cons]
  refine ⟨testPositions_eval, ?_, ?_, hsplice, ?_, ?_⟩
  · rw [testPositions_eval]
    norm_num
  · rw [testPositions_eval]
    norm_num
  · norm_num [insideNotice, resolveDim, fullNotice]
  · rw [is_page_modal, hsplice]
    simp [sameContainerFrom]

/-! ## Deduplication of own cookie notices (results.py lines 29-43, 121-135)

A merged candidate carries its HTML snapshot, its node id (Python dict
identity for the purposes of these properties) and its mutable
`techniques` tag list.  The comprehension at lines 132-135 walks the
merged list by index; `is_notice_part_of_some_other` scans the same
list from the front, extends the techniques of the first match
in place, and reports whether the candidate is dropped.  The pass is
embedded as a fold over the candidate indices threading the (mutated)
array and the keep flags. -/

structure OwnNotice where
  html : String
  node_id : Nat
  techniques : List String
deriving DecidableEq

def defaultNotice : OwnNotice := { html := "", node_id := 0, techniques := [] }

/-- `is_notice_part_of_other` (results.py 29-30): strict substring. -/
def is_notice_part_of_other (c1 c2 : OwnNotice) : Bool :=
  strContains c2.html c1.html && !(c1.html == c2.html)

/-- `is_notice_equal` (results.py 32-33). -/
def is_notice_equal (c1 c2 : OwnNotice) : Bool :=
  c1.html == c2.html

/-- The body predicate of the loop in `is_notice_part_of_some_other`
(results.py 36-42) at scan position `i` for the candidate at position
`index`: either the candidate is a strict part of `other`, or it is
byte-identical and strictly later (`index > i`). -/
def absorbCond (arr : List OwnNotice) (index i : Nat) : Bool :=
  is_notice_part_of_other (arr.getD index defaultNotice) (arr.getD i defaultNotice)
    || (is_notice_equal (arr.getD index defaultNotice) (arr.getD i defaultNotice)
        && decide (index > i))

/-- The scan of `is_notice_part_of_some_other`: position of the first
`other` whose branch fires (and whose techniques get extended). -/
def absorberIndex (arr : List OwnNotice) (index : Nat) : Option Nat :=
  (List.range arr.length).find? (absorbCond arr index)

/-- In-place update of one list position (a Python dict mutation). -/
def updateAt {α : Type} : List α → Nat → (α → α) → List α
  | [], _, _ => []
  | a :: l, 0, f => f a :: l
  | a :: l, n + 1, f => a :: updateAt l n f

/-- One comprehension iteration (results.py 132-135): run
`is_notice_part_of_some_other(index, …)`; on a match, the matching
`other` absorbs the candidate's current techniques and the keep flag is
false, otherwise true. -/
def dedupStep (st : List OwnNotice × List Bool) (index : Nat) :
    List OwnNotice × List Bool :=
  match absorberIndex st.1 index with
  | none => (st.1, st.2 ++ [true])
  | some i =>
    let c := st.1.getD index defaultNotice
    (updateAt st.1 i (fun o => { o with techniques := o.techniques ++ c.techniques }),
     st.2 ++ [false])

/-- The whole dedup pass: final array state and keep flags, by index. -/
def dedupPass (notices : List OwnNotice) : List OwnNotice × List Bool :=
  (List.range notices.length).foldl dedupStep (notices, [])

/-- The array state at the moment candidate `k` is examined. -/
def stepArray (l : List OwnNotice) (k : Nat) : List OwnNotice :=
  ((List.range k).foldl dedupStep (l, [])).1

/-- The merged list produced by the comprehension: the kept dicts in
their final state. -/
def merge_own_notices (notices : List OwnNotice) : List OwnNotice :=
  (((dedupPass notices).1.zip (dedupPass notices).2).filter (fun pb => pb.2)).map
    (fun pb => pb.1)

def c6n0 : OwnNotice := { html := "<div>X</div>", node_id := 1, techniques := ["fixed_parent"] }

def c6n1 : OwnNotice :=
  { html := "<section><div>X</div></section>", node_id := 2, techniques := ["full_width_parent"] }

def c6n2 : OwnNotice :=
  { html := "<main><div>X</div></main>", node_id := 3, techniques := ["full_width_parent"] }

def c6n3 : OwnNotice :=
  { html := "<section><div>X</div></section>", node_id := 4, techniques := ["fixed_parent"] }

/-- C6 counterexample.  Candidates: n0 = `<div>X</div>` (strict part of
both n1 and n2), n1 = `<section>…</section>`, n2 = `<main>…</main>`,
n3 byte-identical to n1 but discovered later.  The merged list keeps
n1 (node id 2) and n2 (node id 3): so (a) for the byte-identical pair
(n1, n3) it is the EARLIER candidate that survives and absorbs the
later one's tags — the claim says the later absorbs and the earlier is
dropped; and (b) although n0's HTML is a strict substring of n2's, n2
does not absorb n0's `fixed_parent` tag (only the first container in
scan order does). -/
theorem C6_counterexample :
    merge_own_notices [c6n0, c6n1, c6n2, c6n3]
      = [{ html := "<section><div>X</div></section>", node_id := 2,
           techniques := ["full_width_parent", "fixed_parent", "fixed_parent"] },
         { html := "<main><div>X</div></main>", node_id := 3,
           techniques := ["full_width_parent"] }] ∧
    is_notice_part_of_other c6n0 c6n1 = true ∧
    is_notice_part_of_other c6n0 c6n2 = true ∧
    is_notice_equal c6n1 c6n3 = true ∧
    (merge_own_notices [c6n0, c6n1, c6n2, c6n3]).map OwnNotice.node_id = [2, 3] := by
  decide

theorem updateAt_length {α : Type} (f : α → α) : ∀ (l : List α) (i : Nat),
    (updateAt l i f).length = l.length := by
  intro l
  induction l with
  | nil =>
    intro i
    rfl
  | cons a t ih =>
    intro i
    cases i with
    | zero => rfl
    | succ n => simp [updateAt, ih]

theorem getD_updateAt_ne {α : Type} (f : α → α) : ∀ (l : List α) (i j : Nat) (d : α),
    i ≠ j → (updateAt l i f).getD j d = l.getD j d := by
  intro l
  induction l with
  | nil =>
    intro i j d _
    rfl
  | cons a t ih =>
    intro i j d hne
    cases i with
    | zero =>
      cases j with
      | zero => exact absurd rfl hne
      | succ m => rfl
    | succ n =>
      cases j with
      | zero => rfl
      | succ m =>
        simp only [updateAt, List.getD_cons_succ]
        exact ih n m d (by omega)

theorem getD_updateAt_self {α : Type} (f : α → α) : ∀ (l : List α) (i : Nat) (d : α),
    i < l.length → (updateAt l i f).getD i d = f (l.getD i d) := by
  intro l
  induction l with
  | nil =>
    intro i d h
    simp at h
  | cons a t ih =>
    intro i d h
    cases i with
    | zero => rfl
    | succ n =>
      simp only [updateAt, List.getD_cons_succ]
      exact ih n d (by simpa using h)

theorem updateAt_map {α β : Type} (f : α → α) (g : α → β) (hg : ∀ a, g (f a) = g a) :
    ∀ (l : List α) (i : Nat), (updateAt l i f).map g = l.map g := by
  intro l
  induction l with
  | nil =>
    intro i
    rfl
  | cons a t ih =>
    intro i
    cases i with
    | zero => simp [updateAt, hg]
    | succ n => simp [updateAt, ih]

theorem getD_map {α β : Type} (f : α → β) : ∀ (l : List α) (i : Nat) (d : α),
    (l.map f).getD i (f d) = f (l.getD i d) := by
  intro l
  induction l with
  | nil =>
    intro i d
    rfl
  | cons a t ih =>
    intro i d
    cases i with
    | zero => rfl
    | succ n => simpa using ih n d

theorem absorbCond_of_map_html (arr arr2 : List OwnNotice)
    (h : arr.map OwnNotice.html = arr2.map OwnNotice.html) (index i : Nat) :
    absorbCond arr index i = absorbCond arr2 index i := by
  have hh : ∀ j : Nat, (arr.getD j defaultNotice).html = (arr2.getD j defaultNotice).html := by
    intro j
    have e1 := getD_map OwnNotice.html arr j defaultNotice
    have e2 := getD_map OwnNotice.html arr2 j defaultNotice
    rw [← e1, ← e2, h]
  simp only [absorbCond, is_notice_part_of_other, is_notice_equal, strContains, hh]

theorem absorberIndex_of_map_html (arr arr2 : List OwnNotice)
    (h : arr.map OwnNotice.html = arr2.map OwnNotice.html) (index : Nat) :
    absorberIndex arr index = absorberIndex arr2 index := by
  have hlen : arr.length = arr2.length := by
    have := congrArg List.length h
    simpa using this
  have hpred : absorbCond arr index = absorbCond arr2 index :=
    funext (fun i => absorbCond_of_map_html arr arr2 h index i)
  rw [absorberIndex, absorberIndex, hlen, hpred]

theorem dedupStep_fst_map_html (st : List OwnNotice × List Bool) (k : Nat) :
    (dedupStep st k).1.map OwnNotice.html = st.1.map OwnNotice.html := by
  unfold dedupStep
  cases habs : absorberIndex st.1 k with
  | none => rfl
  | some i =>
    exact updateAt_map
      (fun o => { o with techniques := o.techniques ++ (st.1.getD k defaultNotice).techniques })
      OwnNotice.html (fun a => rfl) st.1 i

theorem dedupStep_fst_length (st : List OwnNotice × List Bool) (k : Nat) :
    (dedupStep st k).1.length = st.1.length := by
  have h := congrArg List.length (dedupStep_fst_map_html st k)
  simpa using h

theorem dedupFold_fst_map_html : ∀ (ks : List Nat) (st : List OwnNotice × List Bool),
    ((ks.foldl dedupStep st).1).map OwnNotice.html = st.1.map OwnNotice.html := by
  intro ks
  induction ks with
  | nil =>
    intro st
    rfl
  | cons k rest ih =>
    intro st
    rw [List.foldl_cons, ih (dedupStep st k), dedupStep_fst_map_html]

theorem dedupFold_fst_length (ks : List Nat) (st : List OwnNotice × List Bool) :
    ((ks.foldl dedupStep st).1).length = st.1.length := by
  have h := congrArg List.length (dedupFold_fst_map_html ks st)
  simpa using h

theorem dedupFold_snd (l : List OwnNotice) : ∀ (ks : List Nat)
    (st : List OwnNotice × List Bool),
    st.1.map OwnNotice.html = l.map OwnNotice.html →
    (ks.foldl dedupStep st).2
      = st.2 ++ ks.map (fun k => (absorberIndex l k).isNone) := by
  intro ks
  induction ks with
  | nil =>
    intro st _
    simp
  | cons k rest ih =>
    intro st hmap
    have habs : absorberIndex st.1 k = absorberIndex l k :=
      absorberIndex_of_map_html st.1 l hmap k
    rw [List.foldl_cons]
    have hstep_map : (dedupStep st k).1.map OwnNotice.html = l.map OwnNotice.html := by
      rw [dedupStep_fst_map_html, hmap]
    rw [ih (dedupStep st k) hstep_map]
    cases ha : absorberIndex l k with
    | none =>
      unfold dedupStep
      rw [habs, ha]
      simp [ha]
    | some i =>
      unfold dedupStep
      rw [habs, ha]
      simp [ha]

theorem dedupPass_snd (l : List OwnNotice) :
    (dedupPass l).2 = (List.range l.length).map (fun k => (absorberIndex l k).isNone) := by
  rw [dedupPass, dedupFold_snd l (List.range l.length) (l, []) rfl]
  simp

theorem tech_mem_mono_step (st : List OwnNotice × List Bool) (k i : Nat) (t : String)
    (h : t ∈ (st.1.getD i defaultNotice).techniques) :
    t ∈ ((dedupStep st k).1.getD i defaultNotice).techniques := by
  unfold dedupStep
  cases habs : absorberIndex st.1 k with
  | none => exact h
  | some a =>
    simp only []
    have ha : a < st.1.length := by
      have hmem := List.mem_of_find?_eq_some habs
      simpa [List.mem_range] using hmem
    by_cases hia : i = a
    · subst hia
      rw [getD_updateAt_self _ st.1 i defaultNotice ha]
      exact List.mem_append_left _ h
    · rw [getD_updateAt_ne _ st.1 a i defaultNotice (fun he => hia he.symm)]
      exact h

theorem tech_mem_mono_fold : ∀ (ks : List Nat) (st : List OwnNotice × List Bool)
    (i : Nat) (t : String), t ∈ (st.1.getD i defaultNotice).techniques →
    t ∈ ((ks.foldl dedupStep st).1.getD i defaultNotice).techniques := by
  intro ks
  induction ks with
  | nil =>
    intro st i t h
    exact h
  | cons k rest ih =>
    intro st i t h
    rw [List.foldl_cons]
    exact ih (dedupStep st k) i t (tech_mem_mono_step st k i t h)

theorem find?_range'_min (p : Nat → Bool) : ∀ (n s j : Nat),
    (List.range' s n).find? p = some j → ∀ i, s ≤ i → i < j → p i = false := by
  intro n
  induction n with
  | zero =>
    intro s j h
    simp [List.range'] at h
  | succ m ih =>
    intro s j h i hsi hij
    rw [List.range'_succ] at h
    cases hp : p s with
    | true =>
      rw [List.find?_cons_of_pos _ hp] at h
      have hj : j = s := by
        cases h
        rfl
      omega
    | false =>
      rw [List.find?_cons_of_neg _ (by simp [hp])] at h
      by_cases his : i = s
      · subst his
        exact hp
      · exact ih (s + 1) j h i (by omega) hij

theorem range_split (n k : Nat) (hk : k < n) :
    List.range n = List.range k ++ k :: (List.range n).drop (k + 1) := by
  have hlen : k < (List.range n).length := by simpa using hk
  conv_lhs => rw [← List.take_append_drop k (List.range n)]
  rw [List.take_range, List.drop_eq_getElem_cons hlen]
  congr 1
  · congr 1
    omega
  · congr 1
    simp

/-- The Prop-level drop condition over the original candidate list:
some other candidate strictly contains this one's HTML, or an earlier
candidate has byte-identical HTML. -/
def dropCondP (l : List OwnNotice) (index i : Nat) : Prop :=
  ((l.getD index defaultNotice).html ≠ (l.getD i defaultNotice).html ∧
    ((l.getD index defaultNotice).html).data <:+: ((l.getD i defaultNotice).html).data) ∨
  ((l.getD index defaultNotice).html = (l.getD i defaultNotice).html ∧ i < index)

theorem dedupStep_fst_of_some (st : List OwnNotice × List Bool) (k i : Nat)
    (h : absorberIndex st.1 k = some i) :
    (dedupStep st k).1 = updateAt st.1 i
      (fun o => { o with
        techniques := o.techniques ++ (st.1.getD k defaultNotice).techniques }) := by
  unfold dedupStep
  rw [h]

theorem absorbCond_iff (l : List OwnNotice) (k j : Nat) :
    absorbCond l k j = true ↔ dropCondP l k j := by
  simp only [absorbCond, is_notice_part_of_other, is_notice_equal, strContains, dropCondP,
    Bool.or_eq_true, Bool.and_eq_true, charsContain_iff, Bool.not_eq_true',
    beq_eq_false_iff_ne, beq_iff_eq, decide_eq_true_eq, gt_iff_lt]
  tauto

/-- C6 amended: in the dedup pass over the merged fixed-parent /
full-width-parent list, candidate k is dropped iff some candidate's
HTML strictly contains k's HTML or some EARLIER candidate has
byte-identical HTML (so for a byte-identical pair the LATER candidate
is dropped, not the earlier one); the absorbing candidate is the first
one in discovery order whose branch fires — it, and in general only
it, receives the dropped candidate's technique tags, which are
contained in its final technique list.  The keep flags returned by the
pass line up index-by-index with the candidates, and
`merge_own_notices` is the final array filtered by them. -/
theorem C6_dedup_amended (l : List OwnNotice) (k : Nat) (hk : k < l.length) :
    ((dedupPass l).1.length = l.length) ∧
    ((dedupPass l).2.length = l.length) ∧
    ((dedupPass l).2.getD k true = false ↔ ∃ j, j < l.length ∧ dropCondP l k j) ∧
    (absorberIndex (stepArray l k) k = absorberIndex l k) ∧
    (∀ j, absorberIndex l k = some j →
      j < l.length ∧ dropCondP l k j ∧ (∀ i, i < j → ¬ dropCondP l k i) ∧
      (∀ t, t ∈ (l.getD k defaultNotice).techniques →
        t ∈ ((dedupPass l).1.getD j defaultNotice).techniques)) := by
  have hlen1 : (dedupPass l).1.length = l.length := by
    rw [dedupPass]
    exact dedupFold_fst_length _ _
  have hsnd := dedupPass_snd l
  have hlen2 : (dedupPass l).2.length = l.length := by
    rw [hsnd]
    simp
  have hflag : (dedupPass l).2.getD k true = ((absorberIndex l k).isNone : Bool) := by
    rw [hsnd, List.getD_eq_getElem?_getD, List.getElem?_map, List.getElem?_range hk]
    rfl
  refine ⟨hlen1, hlen2, ?_, ?_, ?_⟩
  · rw [hflag]
    constructor
    · intro h
      cases ha : absorberIndex l k with
      | none =>
        rw [ha] at h
        simp at h
      | some j =>
        have hj_lt : j < l.length := List.mem_range.mp (List.mem_of_find?_eq_some ha)
        exact ⟨j, hj_lt, (absorbCond_iff l k j).mp (List.find?_some ha)⟩
    · rintro ⟨j, hj, hcond⟩
      cases ha : absorberIndex l k with
      | some i => simp
      | none =>
        have hnone := List.find?_eq_none.mp ha j (List.mem_range.mpr hj)
        exact absurd ((absorbCond_iff l k j).mpr hcond) (by simpa using hnone)
  · exact absorberIndex_of_map_html _ _ (dedupFold_fst_map_html _ _) k
  · intro j ha
    have hj_lt : j < l.length := List.mem_range.mp (List.mem_of_find?_eq_some ha)
    have hcond : dropCondP l k j := (absorbCond_iff l k j).mp (List.find?_some ha)
    have hmin : ∀ i, i < j → ¬ dropCondP l k i := by
      intro i hij hdrop
      have hr : List.range l.length = List.range' 0 l.length := List.range_eq_range' _
      have hfalse : absorbCond l k i = false := by
        refine find?_range'_min (absorbCond l k) l.length 0 j ?_ i (by omega) hij
        rw [← hr]
        exact ha
      rw [(absorbCond_iff l k i).mpr hdrop] at hfalse
      simp at hfalse
    refine ⟨hj_lt, hcond, hmin, ?_⟩
    intro t ht
    have hpass : dedupPass l
        = ((List.range l.length).drop (k + 1)).foldl dedupStep
            (dedupStep ((List.range k).foldl dedupStep (l, [])) k) := by
      conv_lhs => rw [dedupPass, range_split l.length k hk]
      rw [List.foldl_append, List.foldl_cons]
    have hmapK : (((List.range k).foldl dedupStep
        ((l : List OwnNotice), ([] : List Bool))).1).map OwnNotice.html
        = l.map OwnNotice.html := dedupFold_fst_map_html _ _
    have hlenK : (((List.range k).foldl dedupStep
        ((l : List OwnNotice), ([] : List Bool))).1).length = l.length :=
      dedupFold_fst_length _ _
    have habsK : absorberIndex (((List.range k).foldl dedupStep
        ((l : List OwnNotice), ([] : List Bool))).1) k = some j := by
      rw [absorberIndex_of_map_html _ l hmapK k]
      exact ha
    have ht1 : t ∈ ((((List.range k).foldl dedupStep
        ((l : List OwnNotice), ([] : List Bool))).1).getD k defaultNotice).techniques :=
      tech_mem_mono_fold (List.range k) (l, []) k t ht
    have ht2 : t ∈ ((dedupStep ((List.range k).foldl dedupStep (l, [])) k).1.getD j
        defaultNotice).techniques := by
      rw [dedupStep_fst_of_some _ k j habsK,
        getD_updateAt_self _ _ _ _ (by rw [hlenK]; exact hj_lt)]
      exact List.mem_append_right _ ht1
    rw [hpass]
    exact tech_mem_mono_fold _ _ j t ht2

/-- Witness for the amended C6 at the counterexample input: candidate 3
(byte-identical to the earlier candidate 1) is dropped, and its
`fixed_parent` tag ends up in the final techniques of candidate 1, the
first (and earlier) match. -/
theorem C6_dedup_amended_witness :
    (dedupPass [c6n0, c6n1, c6n2, c6n3]).2.getD 3 true = false ∧
    "fixed_parent" ∈ (((dedupPass [c6n0, c6n1, c6n2, c6n3]).1.getD 1
      defaultNotice).techniques) := by
  constructor
  · exact (C6_dedup_amended [c6n0, c6n1, c6n2, c6n3] 3 (by decide)).2.2.1.mpr
      ⟨1, by decide, (absorbCond_iff [c6n0, c6n1, c6n2, c6n3] 3 1).mp (by decide)⟩
  · exact ((C6_dedup_amended [c6n0, c6n1, c6n2, c6n3] 3 (by decide)).2.2.2.2 1
      (by decide)).2.2.2 "fixed_parent" (by decide)

end CookieScanner
